import Mathlib

/-!
Shallow embedding of the `wtp` repository (a U.S. Congress roll-call vote
tracker): the Express proxy in `src/server.js` and the client fetch /
normalization pipeline `fetchVotes` in `src/client/src/App.jsx`.

JavaScript values flowing through the client are modelled by a JSON value
type `Json` plus `JsVal` (a JSON value or `undefined`); dynamic property
access, truthiness, string coercion and thrown `TypeError`s are modelled
explicitly.  Fallible operations return `Except String`, the error being
the JavaScript error message surfaced by the `catch` handler.  Machine
numbers are modelled as `Int` (all numbers exercised here are integers).
The environment-dependent local time zone of `new Date(...)` is modelled
as UTC; no claim below depends on the offset.
-/

/-- A JSON value, as produced by `JSON.parse` (numbers restricted to
integers, which covers every value this program manipulates). -/
inductive Json where
  | null
  | bool (b : Bool)
  | num (n : Int)
  | str (s : String)
  | arr (elems : List Json)
  | obj (fields : List (String × Json))
deriving Repr, BEq

/-- A JavaScript value reachable in the client: a JSON value or `undefined`. -/
inductive JsVal where
  | undefined
  | val (j : Json)
deriving Repr, BEq

/-- Object field lookup.  `JSON.parse` keeps the last occurrence of a
duplicated key, so later fields win. -/
def lookupField : List (String × Json) → String → Option Json
  | [], _ => none
  | (k, v) :: fs, key =>
    match lookupField fs key with
    | some v2 => some v2
    | none => if k = key then some v else none

/-- JavaScript property access `x.key`: throws a `TypeError` on `null` or
`undefined`, yields `undefined` for a missing field or a primitive base. -/
def getProp : JsVal → String → Except String JsVal
  | .undefined, key =>
    .error ("TypeError: Cannot read properties of undefined (reading " ++ key ++ ")")
  | .val .null, key =>
    .error ("TypeError: Cannot read properties of null (reading " ++ key ++ ")")
  | .val (.obj fs), key =>
    .ok (match lookupField fs key with
         | some v => .val v
         | none => .undefined)
  | .val _, _ => .ok .undefined

/-- JavaScript truthiness of a value. -/
def truthy : JsVal → Bool
  | .undefined => false
  | .val .null => false
  | .val (.bool b) => b
  | .val (.num n) => n != 0
  | .val (.str s) => s != ""
  | .val (.arr _) => true
  | .val (.obj _) => true

mutual
/-- JavaScript string coercion of a JSON value (as in template literals):
arrays join their elements with commas, objects print as
`[object Object]`. -/
def Json.jsStr : Json → String
  | .null => "null"
  | .bool b => if b then "true" else "false"
  | .num n => toString n
  | .str s => s
  | .arr xs => jsStrList xs
  | .obj _ => "[object Object]"

/-- `Array.prototype.join(",")` on coerced elements (`null` elements
render as the empty string). -/
def jsStrList : List Json → String
  | [] => ""
  | [x] => match x with | .null => "" | _ => x.jsStr
  | x :: xs =>
    (match x with | .null => "" | _ => x.jsStr) ++ "," ++ jsStrList xs
end

/-- JavaScript string coercion of a value (`undefined` renders as the
string `"undefined"`, as in `a + "T" + b` and template literals). -/
def jsToString : JsVal → String
  | .undefined => "undefined"
  | .val j => j.jsStr

/-- JavaScript `String.prototype.trim`, modelled on the character list
(whitespace = space, tab, carriage return, line feed — the characters the
payloads exercise). -/
def jsStringTrim (s : String) : String :=
  String.mk (((s.data.dropWhile Char.isWhitespace).reverse.dropWhile Char.isWhitespace).reverse)

/-- JavaScript `x.trim()`: succeeds only on strings, otherwise raises the
`TypeError` the engine would raise. -/
def jsTrim : JsVal → Except String String
  | .val (.str s) => .ok (jsStringTrim s)
  | .undefined => .error "TypeError: Cannot read properties of undefined (reading trim)"
  | .val .null => .error "TypeError: Cannot read properties of null (reading trim)"
  | .val _ => .error "TypeError: trim is not a function"

/-- The user settings read by `fetchVotes` (`App.jsx`): congress number,
session number and the two chamber toggles. -/
structure Settings where
  congress : Int
  session : Int
  includeHouse : Bool
  includeSenate : Bool
deriving Repr, BEq

/-- The canonical vote record built by `fetchVotes`.  `number` and `date`
are stored exactly as the dynamic values the code assigns (they are not
converted), so they are `JsVal`; the remaining fields are strings built by
template literals. -/
structure Vote where
  chamber : String
  number : JsVal
  date : JsVal
  title : String
  result : String
  key : String
deriving Repr, BEq

/-- A `<rollcall-vote>` element of the House XML, abstracted to the text
content of the child elements the code queries (`none` when
`querySelector` finds no such child; `textContent` of a present element is
always a string). -/
structure RollcallVote where
  action_date : Option String
  action_time : Option String
  rollcall_num : Option String
  vote_question : Option String
  vote_result : Option String
  yea_total : Option String
  nay_total : Option String
deriving Repr, BEq

/-- Helper to calculate the year for a Congress and Session (`App.jsx`):
`1789 + (congress - 1) * 2 + (session - 1)`. -/
def getYearForCongress (congress session : Int) : Int :=
  1789 + (congress - 1) * 2 + (session - 1)

/-- Client-side Senate URL `/api/senate/<congress>/<session>` (`App.jsx`). -/
def senateMenuUrl (congress session : Int) : String :=
  "/api/senate/" ++ toString congress ++ "/" ++ toString session

/-- Client-side House URL `/api/house/<year>` (`App.jsx`). -/
def houseRollsIndex (year : Int) : String :=
  "/api/house/" ++ toString year

/-- Left-to-right effectful map over a list, stopping at the first error:
the semantics of `Array.prototype.map` with a callback that can throw. -/
def mapMExcept (f : α → Except String β) : List α → Except String (List β)
  | [] => .ok []
  | x :: xs =>
    match f x with
    | .error e => .error e
    | .ok y =>
      match mapMExcept f xs with
      | .error e => .error e
      | .ok ys => .ok (y :: ys)

/-- The Senate per-record mapping of `fetchVotes` (`App.jsx` lines
291-298), with the dynamic accesses (and the `TypeError`s they can raise)
made explicit, in source evaluation order. -/
def senateRecord (congress session : Int) (v : Json) : Except String Vote :=
  match getProp (.val v) "vote_number" with
  | .error e => .error e
  | .ok num =>
  match getProp (.val v) "vote_date" with
  | .error e => .error e
  | .ok date =>
  match getProp (.val v) "issue" with
  | .error e => .error e
  | .ok issueV =>
  match jsTrim issueV with
  | .error e => .error e
  | .ok issue =>
  match getProp (.val v) "question" with
  | .error e => .error e
  | .ok questionV =>
  match jsTrim questionV with
  | .error e => .error e
  | .ok question =>
  match getProp (.val v) "result" with
  | .error e => .error e
  | .ok res =>
  match getProp (.val v) "counts" with
  | .error e => .error e
  | .ok counts =>
  match getProp counts "Yea" with
  | .error e => .error e
  | .ok yea =>
  match getProp counts "Nay" with
  | .error e => .error e
  | .ok nay =>
    .ok { chamber := "Senate"
          number := num
          date := date
          title := issue ++ ": " ++ question
          result := jsToString res ++ " (" ++ jsToString yea ++ "-" ++ jsToString nay ++ ")"
          key := "s-" ++ toString congress ++ "-" ++ toString session ++ "-" ++ jsToString num }

/-- The Senate branch of `fetchVotes` (`App.jsx` lines 290-305): the
truthiness check `data.roll_calls && data.roll_calls.roll_call`, the
`.map` over the array (a `TypeError` when the value is truthy but not an
array), and the soft warning path yielding zero votes. -/
def senateBranch (congress session : Int) (data : Json) : Except String (List Vote) :=
  match getProp (.val data) "roll_calls" with
  | .error e => .error e
  | .ok rc =>
    if truthy rc then
      match getProp rc "roll_call" with
      | .error e => .error e
      | .ok rcc =>
        if truthy rcc then
          match rcc with
          | .val (.arr xs) => mapMExcept (senateRecord congress session) xs
          | _ => .error "TypeError: data.roll_calls.roll_call.map is not a function"
        else .ok []
    else .ok []

/-- Coercion applied to an optional child text in string concatenation and
template literals: an absent child (`undefined`) renders as `"undefined"`. -/
def optText : Option String → String
  | some t => t
  | none => "undefined"

/-- The House per-element mapping of `fetchVotes` (`App.jsx` lines
313-330). -/
def mapHouseVote (year : Int) (v : RollcallVote) : Vote :=
  { chamber := "House"
    number := match v.rollcall_num with
              | some t => .val (.str t)
              | none => .undefined
    date := .val (.str (optText v.action_date ++ "T" ++ optText v.action_time))
    title := match v.vote_question with
             | some t => if t = "" then "N/A" else t
             | none => "N/A"
    result := optText v.vote_result ++ " (" ++ optText v.yea_total ++ "-" ++ optText v.nay_total ++ ")"
    key := "h-" ++ toString year ++ "-" ++ optText v.rollcall_num }

/-- Leap year test of the proleptic Gregorian calendar. -/
def isLeap (y : Int) : Bool :=
  y % 4 == 0 && (y % 100 != 0 || y % 400 == 0)

/-- Number of days in a month. -/
def daysInMonth (y m : Int) : Int :=
  if m = 2 then (if isLeap y then 29 else 28)
  else if m = 4 ∨ m = 6 ∨ m = 9 ∨ m = 11 then 30
  else 31

/-- Days from the Unix epoch to the given civil date (years shifted by 400
so that every intermediate quantity stays nonnegative for years 0-9999,
making the integer divisions convention-independent). -/
def daysFromCivil (y m d : Int) : Int :=
  let y1 := y + 400
  let y2 := if m ≤ 2 then y1 - 1 else y1
  let era := y2 / 400
  let yoe := y2 - era * 400
  let mp := (m + 9) % 12
  let doy := (153 * mp + 2) / 5 + d - 1
  let doe := yoe * 365 + yoe / 4 - yoe / 100 + doy
  era * 146097 + doe - 719468 - 146097

/-- Value of a decimal digit character. -/
def digitVal (c : Char) : Option Nat :=
  if c.isDigit then some (c.toNat - 48) else none

/-- Read exactly `n` decimal digits. -/
def readNDigits : Nat → List Char → Option (Nat × List Char)
  | 0, cs => some (0, cs)
  | _ + 1, [] => none
  | n + 1, c :: cs =>
    match digitVal c with
    | none => none
    | some d =>
      match readNDigits n cs with
      | none => none
      | some (rest, cs2) => some (d * 10 ^ n + rest, cs2)

/-- Parse the optional `-MM[-DD]` part after the year of an ECMAScript
date-time string, with range checks (out-of-range fields make
`Date.parse` return NaN). -/
def parseMonthDay (y : Int) : List Char → Option (Int × Int × List Char)
  | [] => some (1, 1, [])
  | c :: cs =>
    if c = '-' then
      match readNDigits 2 cs with
      | none => none
      | some (m, cs2) =>
        if 1 ≤ m ∧ m ≤ 12 then
          match cs2 with
          | [] => some ((m : Int), 1, [])
          | c2 :: cs3 =>
            if c2 = '-' then
              match readNDigits 2 cs3 with
              | none => none
              | some (d, cs4) =>
                if 1 ≤ (d : Int) ∧ (d : Int) ≤ daysInMonth y m
                then some ((m : Int), (d : Int), cs4)
                else none
            else some ((m : Int), 1, c2 :: cs3)
        else none
    else some (1, 1, c :: cs)

/-- Parse the time-zone offset tail of a date-time string: empty means
local time (modelled as UTC), `Z` means UTC, `+HH:MM` / `-HH:MM` an
explicit offset.  Returns the offset in milliseconds to subtract. -/
def parseOffset : List Char → Option Int
  | [] => some 0
  | [ c ] => if c = 'Z' then some 0 else none
  | c :: cs =>
    if c = '+' ∨ c = '-' then
      match readNDigits 2 cs with
      | none => none
      | some (hh, cs2) =>
        match cs2 with
        | [] => none
        | c2 :: cs3 =>
          if c2 = ':' then
            match readNDigits 2 cs3 with
            | none => none
            | some (mm, cs4) =>
              if cs4 = [] ∧ hh ≤ 23 ∧ mm ≤ 59 then
                let total : Int := ((hh : Int) * 60 + mm) * 60000
                some (if c = '-' then -total else total)
              else none
          else none
    else none

/-- Parse the optional `:SS[.mmm]` part of a time. -/
def parseSecondsPart : List Char → Option (Nat × Nat × List Char)
  | c :: cs =>
    if c = ':' then
      match readNDigits 2 cs with
      | none => none
      | some (ss, cs2) =>
        match cs2 with
        | c2 :: cs3 =>
          if c2 = '.' then
            match readNDigits 3 cs3 with
            | none => none
            | some (ms, cs4) => some (ss, ms, cs4)
          else some (ss, 0, c2 :: cs3)
        | [] => some (ss, 0, [])
    else some (0, 0, c :: cs)
  | [] => some (0, 0, [])

/-- Parse `HH:MM[:SS[.mmm]][offset]` to milliseconds past midnight
(adjusted by the offset), with ECMAScript range checks. -/
def parseTimeOfDay (cs : List Char) : Option Int :=
  match readNDigits 2 cs with
  | none => none
  | some (hh, cs2) =>
    match cs2 with
    | [] => none
    | c :: cs3 =>
      if c = ':' then
        match readNDigits 2 cs3 with
        | none => none
        | some (mm, cs4) =>
          match parseSecondsPart cs4 with
          | none => none
          | some (ss, ms, cs5) =>
            match parseOffset cs5 with
            | none => none
            | some off =>
              if mm ≤ 59 ∧ ss ≤ 59 ∧
                  (hh ≤ 23 ∨ (hh = 24 ∧ mm = 0 ∧ ss = 0 ∧ ms = 0)) then
                some ((hh : Int) * 3600000 + (mm : Int) * 60000
                      + (ss : Int) * 1000 + (ms : Int) - off)
              else none
      else none

/-- Parse an ECMAScript Date Time String Format string
(`YYYY[-MM[-DD]][THH:MM[:SS[.mmm]][Z|(+|-)HH:MM]]`) to a millisecond
timestamp; `none` models the NaN time value of an unrecognized string
(the implementation-defined fallback formats are modelled as
unrecognized, and local time as UTC). -/
def parseDateStr (s : String) : Option Int :=
  match readNDigits 4 s.toList with
  | none => none
  | some (y, cs) =>
    match parseMonthDay (y : Int) cs with
    | none => none
    | some (m, d, cs2) =>
      let dayMs := daysFromCivil (y : Int) m d * 86400000
      match cs2 with
      | [] => some dayMs
      | c :: cs3 =>
        if c = 'T' then
          match parseTimeOfDay cs3 with
          | none => none
          | some t => some (dayMs + t)
        else none

/-- The numeric time value of `new Date(x)` for the dynamic value `x`
(`none` models NaN): strings go through the date-time parser, numbers are
millisecond timestamps, `null` and booleans coerce through `ToNumber`,
`undefined` and plain objects give NaN, arrays coerce to their joined
string form first. -/
def dateNum : JsVal → Option Int
  | .undefined => none
  | .val .null => some 0
  | .val (.bool b) => some (if b then 1 else 0)
  | .val (.num n) => some n
  | .val j => parseDateStr j.jsStr

/-- NaN-propagating subtraction of time values. -/
def nanSub : Option Int → Option Int → Option Int
  | some a, some b => some (a - b)
  | _, _ => none

/-- The comparator `(a, b) => new Date(b.date) - new Date(a.date)` passed
to `fetchedVotes.sort` (`App.jsx` line 335), after the ECMAScript
`CompareArrayElements` step that turns a NaN comparator result into 0. -/
def voteCmp (a b : Vote) : Int :=
  (nanSub (dateNum b.date) (dateNum a.date)).getD 0

/-- `Array.prototype.sort` with the vote comparator, modelled as a stable
insertion sort (a conforming implementation; engines sort small arrays by
binary insertion as well). -/
def jsSortVotes (l : List Vote) : List Vote :=
  List.insertionSort (fun a b => voteCmp a b ≤ 0) l

/-- The outcome of one `fetchVotes` invocation, as observable through the
component state: the vote list passed to `setVotes`, the message passed
to `setError` (at most one), and the relay requests issued. -/
structure FetchOutcome where
  votes : List Vote
  error : Option String
  requests : List String
deriving Repr, BEq

/-- The Senate half of the `try` block: skipped when the chamber is not
selected, otherwise the `fetchJson` result (`Except.error` models a
thrown network / HTTP / JSON-parse error) feeds the Senate branch. -/
def senatePart (s : Settings) (senateResp : Except String Json) : Except String (List Vote) :=
  if s.includeSenate then
    match senateResp with
    | .error e => .error e
    | .ok data => senateBranch s.congress s.session data
  else .ok []

/-- The `fetchVotes` callback of `App.jsx` (lines 270-343).  The network
is abstracted by the two possible relay responses: `senateResp` models
the `fetchJson` result (error = thrown), `houseResp` the `fetchXml`
result (a parsed list of `rollcall-vote` elements, or a thrown error).
The fetches are sequential: a Senate failure prevents the House request.
Any thrown error reaches the `catch` handler, which leaves the vote list
empty (it was cleared on entry) and surfaces that single message. -/
def fetchVotes (s : Settings) (senateResp : Except String Json)
    (houseResp : Except String (List RollcallVote)) : FetchOutcome :=
  if !s.includeHouse && !s.includeSenate then
    { votes := []
      error := some "Please select at least one chamber (House or Senate) to fetch votes."
      requests := [] }
  else
    let reqS := if s.includeSenate then [senateMenuUrl s.congress s.session] else []
    match senatePart s senateResp with
    | .error e => { votes := [], error := some e, requests := reqS }
    | .ok sv =>
      if s.includeHouse then
        let year := getYearForCongress s.congress s.session
        match houseResp with
        | .error e => { votes := [], error := some e, requests := reqS ++ [houseRollsIndex year] }
        | .ok doc =>
          let hv := doc.map (mapHouseVote year)
          { votes := jsSortVotes (sv ++ hv)
            error := none
            requests := reqS ++ [houseRollsIndex year] }
      else
        { votes := jsSortVotes sv, error := none, requests := reqS }

/-- The opening curly brace character. -/
def lbrace : Char := Char.ofNat 123

/-- The closing curly brace character. -/
def rbrace : Char := Char.ofNat 125

/-- JSON insignificant whitespace. -/
def isJsonWs (c : Char) : Bool :=
  c = ' ' ∨ c = '\t' ∨ c = '\n' ∨ c = '\r'

/-- Skip insignificant whitespace. -/
def skipWs : List Char → List Char
  | [] => []
  | c :: cs => if isJsonWs c then skipWs cs else c :: cs

/-- Resolve a JSON string escape character (the `\uXXXX` form is outside
the modelled fragment). -/
def unescape (c : Char) : Option Char :=
  if c = '"' then some '"'
  else if c = '\\' then some '\\'
  else if c = '/' then some '/'
  else if c = 'n' then some '\n'
  else if c = 't' then some '\t'
  else if c = 'r' then some '\r'
  else if c = 'b' then some (Char.ofNat 8)
  else if c = 'f' then some (Char.ofNat 12)
  else none

/-- Parse the body of a JSON string literal after the opening quote,
returning the decoded characters and the text after the closing quote. -/
def pStringBody : List Char → Option (List Char × List Char)
  | [] => none
  | c :: cs =>
    if c = '"' then some ([], cs)
    else if c = '\\' then
      match cs with
      | [] => none
      | e :: cs2 =>
        match unescape e with
        | none => none
        | some ch =>
          match pStringBody cs2 with
          | none => none
          | some (body, rest) => some (ch :: body, rest)
    else if c.toNat < 32 then none
    else
      match pStringBody cs with
      | none => none
      | some (body, rest) => some (c :: body, rest)

/-- Maximal run of decimal digits. -/
def pDigits : List Char → List Nat × List Char
  | [] => ([], [])
  | c :: cs =>
    match digitVal c with
    | none => ([], c :: cs)
    | some d =>
      let (ds, rest) := pDigits cs
      (d :: ds, rest)

/-- Value of a digit list read most-significant first. -/
def digitsToNat (ds : List Nat) : Nat :=
  ds.foldl (fun a d => a * 10 + d) 0

/-- Parse a JSON integer literal (the general number grammar restricted to
integers, which covers every payload this system exchanges). -/
def pNumber (cs : List Char) : Option (Int × List Char) :=
  let (neg, cs1) :=
    match cs with
    | c :: rest => if c = '-' then (true, rest) else (false, cs)
    | [] => (false, ([] : List Char))
  match pDigits cs1 with
  | ([], _) => none
  | (ds, rest) =>
    if ds.head? = some 0 ∧ ds.length > 1 then none
    else
      let n : Int := digitsToNat ds
      some (if neg then -n else n, rest)

/-- Insert a member into an object, overwriting the value of an existing
key in place (the semantics of repeated keys in `JSON.parse`). -/
def insertField (fs : List (String × Json)) (k : String) (v : Json) : List (String × Json) :=
  match fs with
  | [] => [(k, v)]
  | (k2, v2) :: rest =>
    if k2 = k then (k2, v) :: rest else (k2, v2) :: insertField rest k v

mutual
/-- Parse one JSON value; the fuel bounds nesting depth. -/
def pValue : Nat → List Char → Option (Json × List Char)
  | 0, _ => none
  | fuel + 1, cs =>
    match skipWs cs with
    | [] => none
    | c :: cs1 =>
      if c = '"' then
        match pStringBody cs1 with
        | none => none
        | some (body, rest) => some (.str (String.mk body), rest)
      else if c = lbrace then
        match skipWs cs1 with
        | c2 :: cs2 =>
          if c2 = rbrace then some (.obj [], cs2)
          else pMembers fuel (c2 :: cs2) []
        | [] => none
      else if c = '[' then
        match skipWs cs1 with
        | c2 :: cs2 =>
          if c2 = ']' then some (.arr [], cs2)
          else pElems fuel (c2 :: cs2) []
        | [] => none
      else if c = 't' then
        match cs1 with
        | 'r' :: 'u' :: 'e' :: rest => some (.bool true, rest)
        | _ => none
      else if c = 'f' then
        match cs1 with
        | 'a' :: 'l' :: 's' :: 'e' :: rest => some (.bool false, rest)
        | _ => none
      else if c = 'n' then
        match cs1 with
        | 'u' :: 'l' :: 'l' :: rest => some (.null, rest)
        | _ => none
      else
        match pNumber (c :: cs1) with
        | none => none
        | some (n, rest) => some (.num n, rest)

/-- Parse the members of a non-empty JSON object (input starts at the
first key). -/
def pMembers : Nat → List Char → List (String × Json) → Option (Json × List Char)
  | 0, _, _ => none
  | fuel + 1, cs, acc =>
    match skipWs cs with
    | [] => none
    | c :: cs1 =>
      if c = '"' then
        match pStringBody cs1 with
        | none => none
        | some (key, cs2) =>
          match skipWs cs2 with
          | [] => none
          | c2 :: cs3 =>
            if c2 = ':' then
              match pValue fuel cs3 with
              | none => none
              | some (v, cs4) =>
                let acc2 := insertField acc (String.mk key) v
                match skipWs cs4 with
                | [] => none
                | c3 :: cs5 =>
                  if c3 = ',' then pMembers fuel cs5 acc2
                  else if c3 = rbrace then some (.obj acc2, cs5)
                  else none
            else none
      else none

/-- Parse the elements of a non-empty JSON array (input starts at the
first element). -/
def pElems : Nat → List Char → List Json → Option (Json × List Char)
  | 0, _, _ => none
  | fuel + 1, cs, acc =>
    match pValue fuel cs with
    | none => none
    | some (v, cs1) =>
      match skipWs cs1 with
      | [] => none
      | c :: cs2 =>
        if c = ',' then pElems fuel cs2 (acc ++ [v])
        else if c = ']' then some (.arr (acc ++ [v]), cs2)
        else none
end

/-- The `JSON.parse` model: parse one value surrounded by whitespace,
requiring the whole input to be consumed. -/
def jsonParse (s : String) : Option Json :=
  match pValue (s.length + 1) s.toList with
  | none => none
  | some (v, rest) => if skipWs rest = [] then some v else none

/-- Escape one character for a JSON string literal. -/
def escapeChar (c : Char) : String :=
  if c = '"' then "\\\""
  else if c = '\\' then "\\\\"
  else if c = '\n' then "\\n"
  else if c = '\t' then "\\t"
  else if c = '\r' then "\\r"
  else if c.toNat = 8 then "\\b"
  else if c.toNat = 12 then "\\f"
  else String.singleton c

/-- Render a JSON string literal. -/
def quoteStr (s : String) : String :=
  "\"" ++ String.join (s.toList.map escapeChar) ++ "\""

mutual
/-- The `JSON.stringify` model (no replacer, no indent): the compact form
Express `res.json` sends. -/
def Json.stringify : Json → String
  | .null => "null"
  | .bool b => if b then "true" else "false"
  | .num n => toString n
  | .str s => quoteStr s
  | .arr xs => "[" ++ stringifyElems xs ++ "]"
  | .obj fs => String.singleton lbrace ++ stringifyFields fs ++ String.singleton rbrace

/-- Comma-separated rendering of array elements. -/
def stringifyElems : List Json → String
  | [] => ""
  | [x] => x.stringify
  | x :: xs => x.stringify ++ "," ++ stringifyElems xs

/-- Comma-separated rendering of object members. -/
def stringifyFields : List (String × Json) → String
  | [] => ""
  | [(k, v)] => quoteStr k ++ ":" ++ v.stringify
  | (k, v) :: fs => quoteStr k ++ ":" ++ v.stringify ++ "," ++ stringifyFields fs
end

/-- What the upstream government endpoint did for one proxied request:
the transport failed, or an HTTP response arrived. -/
inductive Upstream where
  | netError (msg : String)
  | response (status : Nat) (body : String)
deriving Repr, BEq

/-- The default axios `validateStatus`: only 2xx responses resolve. -/
def is2xx (status : Nat) : Bool :=
  200 ≤ status && status < 300

/-- The default axios JSON response transform: try `JSON.parse`, keep the
raw string when it fails. -/
def axiosParse (body : String) : Json :=
  match jsonParse body with
  | some j => j
  | none => .str body

/-- An HTTP response sent by the proxy: status, body, and the content
type when the handler sets one explicitly (the framework default is left
unmodelled). -/
structure Relayed where
  status : Nat
  body : String
  contentType : Option String
deriving Repr, BEq

/-- The `GET /api/senate/:congress/:session` handler (`server.js` lines
12-23): on an axios success (2xx upstream) it replies via
`res.json(response.data)` — status 200 and the parsed data re-serialized;
on any axios error it replies `error.response?.status || 500` with a
fixed plain-text message. -/
def senateHandler (u : Upstream) : Relayed :=
  match u with
  | .netError _ =>
    { status := 500, body := "Error fetching data from Senate API", contentType := none }
  | .response st body =>
    if is2xx st then
      { status := 200, body := (axiosParse body).stringify, contentType := some "application/json" }
    else
      { status := st, body := "Error fetching data from Senate API", contentType := none }

/-- The `GET /api/house/:year` handler (`server.js` lines 26-38): axios
fetches with `responseType: 'text'`, so a 2xx upstream body is forwarded
verbatim with `Content-Type: application/xml` (and status 200); any axios
error replies `error.response?.status || 500` with a fixed message. -/
def houseHandler (u : Upstream) : Relayed :=
  match u with
  | .netError _ =>
    { status := 500, body := "Error fetching data from House API", contentType := none }
  | .response st body =>
    if is2xx st then
      { status := 200, body := body, contentType := some "application/xml" }
    else
      { status := st, body := "Error fetching data from House API", contentType := none }

/-- A well-formed Senate roll-call record of the consumed external format
(`roll_calls.roll_call` entries: `vote_number`, `vote_date`, `issue`,
`question`, `result`, `counts.Yea`, `counts.Nay`). -/
def mkSenateRecord (vote_number : Int) (vote_date issue question resultLabel : String)
    (yea nay : Int) : Json :=
  .obj [("vote_number", .num vote_number), ("vote_date", .str vote_date),
        ("issue", .str issue), ("question", .str question),
        ("result", .str resultLabel),
        ("counts", .obj [("Yea", .num yea), ("Nay", .num nay)])]

/-- Property access with the thrown case collapsed to `undefined`; used
only to describe values on paths where no throw occurs. -/
def getPropD (x : JsVal) (key : String) : JsVal :=
  match getProp x key with
  | .ok v => v
  | .error _ => .undefined

/-- The array the Senate branch maps over, when the
`data.roll_calls && data.roll_calls.roll_call` check passes and the value
is an actual array. -/
def rollCallArray (data : Json) : Option (List Json) :=
  match getProp (.val data) "roll_calls" with
  | .error _ => none
  | .ok rc =>
    if truthy rc then
      match getProp rc "roll_call" with
      | .error _ => none
      | .ok rcc =>
        if truthy rcc then
          match rcc with
          | .val (.arr xs) => some xs
          | _ => none
        else none
    else none

/-- The rendered `vote_number` of each record the Senate branch maps
over (empty on the soft warning path). -/
def senateNums (data : Json) : List String :=
  match rollCallArray data with
  | some xs => xs.map (fun v => jsToString (getPropD (.val v) "vote_number"))
  | none => []

/-- The rendered `rollcall-num` text of each House element. -/
def houseNums (doc : List RollcallVote) : List String :=
  doc.map (fun rc => optText rc.rollcall_num)

/-- The fixed leading part of a Senate key: `"s-<congress>-<session>-"`. -/
def senateKeyTag (congress session : Int) : String :=
  "s-" ++ toString congress ++ "-" ++ toString session ++ "-"

/-- The fixed leading part of a House key: `"h-<year>-"`. -/
def houseKeyTag (year : Int) : String :=
  "h-" ++ toString year ++ "-"

/-- Whether the Senate branch takes the soft warning path: the
`data.roll_calls && data.roll_calls.roll_call` check evaluates to false
without throwing. -/
def senateSoftMiss (data : Json) : Bool :=
  match getProp (.val data) "roll_calls" with
  | .error _ => false
  | .ok rc =>
    if truthy rc then
      match getProp rc "roll_call" with
      | .error _ => false
      | .ok rcc => !truthy rcc
    else true

/-- Descending order of parsed date values (the order the merged list is
claimed to be in). -/
def dateDesc (a b : Vote) : Prop :=
  (dateNum b.date).getD 0 ≤ (dateNum a.date).getD 0

/-- Whether a dynamic value is a number. -/
def JsVal.isNum : JsVal → Bool
  | .val (.num _) => true
  | _ => false

/-- The Senate roll-call record of the spec scenario. -/
def exSenateRecord : Json :=
  mkSenateRecord 5 "2024-03-01" " HR1 " " On Passage " "Agreed to" 60 40

/-- A Senate menu body holding exactly the scenario record. -/
def exSenateData : Json :=
  .obj [("roll_calls", .obj [("roll_call", .arr [exSenateRecord])])]

/-- The Vote the Senate scenario record maps to (congress 118, session 2). -/
def exSenateVote : Vote :=
  { chamber := "Senate", number := .val (.num 5), date := .val (.str "2024-03-01"),
    title := "HR1: On Passage", result := "Agreed to (60-40)", key := "s-118-2-5" }

/-- The House `rollcall-vote` element of the spec scenario. -/
def exHouseRC : RollcallVote :=
  { action_date := some "2024-03-02", action_time := some "14:00",
    rollcall_num := some "10", vote_question := some "On Agreeing",
    vote_result := some "Passed", yea_total := some "200", nay_total := some "150" }

/-- The Vote the House scenario element maps to (year 2024). -/
def exHouseVote : Vote :=
  { chamber := "House", number := .val (.str "10"), date := .val (.str "2024-03-02T14:00"),
    title := "On Agreeing", result := "Passed (200-150)", key := "h-2024-10" }

/-- A Senate record whose `vote_date` does not parse as a date. -/
def badDateRecord : Json :=
  mkSenateRecord 6 "not a date" "X" "Y" "Rejected" 1 2

/-- A Senate body mixing a parseable and an unparseable vote date. -/
def exSenateData2 : Json :=
  .obj [("roll_calls", .obj [("roll_call", .arr [exSenateRecord, badDateRecord])])]

/-- A Senate body whose records repeat a `vote_number`. -/
def dupSenateData : Json :=
  .obj [("roll_calls", .obj [("roll_call", .arr [exSenateRecord, exSenateRecord])])]

/-- A Senate body that parses as JSON but whose `roll_calls.roll_call` is
truthy and not an array. -/
def malformedRollCallData : Json :=
  .obj [("roll_calls", .obj [("roll_call", .num 5)])]

/-- A Senate body that parses as JSON but has no `roll_calls` field. -/
def noRollsData : Json :=
  .obj [("other", .num 1)]

/-- The character data of the Senate key opener. -/
lemma sDash_data : ("s-" : String).data = ['s', '-'] := rfl

/-- The character data of the House key opener. -/
lemma hDash_data : ("h-" : String).data = ['h', '-'] := rfl

/-- Appending on the left of a fixed string is injective. -/
lemma string_append_left_injective (p : String) :
    Function.Injective (fun t => p ++ t) := by
  intro a b h
  have hd : (p ++ a).data = (p ++ b).data := congrArg String.data h
  rw [String.data_append, String.data_append] at hd
  exact String.ext (List.append_cancel_left hd)

/-- A Senate key never equals a House key: their first characters differ. -/
lemma senateKey_ne_houseKey (c s y : Int) (a b : String) :
    senateKeyTag c s ++ a ≠ houseKeyTag y ++ b := by
  intro h
  have hd : (senateKeyTag c s ++ a).data = (houseKeyTag y ++ b).data :=
    congrArg String.data h
  simp only [senateKeyTag, houseKeyTag, String.data_append, sDash_data, hDash_data,
    List.cons_append, List.append_assoc] at hd
  exact absurd (List.head_eq_of_cons_eq hd) (by decide)

/-- Reduction of `fetchVotes` when both chambers are selected and both
transports succeed, given the Senate branch result. -/
lemma fetchVotes_both_ok (c s : Int) (data : Json) (doc : List RollcallVote)
    (sv : List Vote) (hs : senateBranch c s data = .ok sv) :
    fetchVotes ⟨c, s, true, true⟩ (.ok data) (.ok doc) =
      { votes := jsSortVotes (sv ++ doc.map (mapHouseVote (getYearForCongress c s)))
        error := none
        requests := [senateMenuUrl c s, houseRollsIndex (getYearForCongress c s)] } := by
  simp [fetchVotes, senatePart, hs]

/-- Reduction of `fetchVotes` for every successful invocation: at least
one chamber selected, the Senate part succeeding with `sv` (which is
`[]` when the Senate is not selected), and the House transport
succeeding with `doc` whenever the House is selected (the House response
is never consulted otherwise). -/
lemma fetchVotes_ok (s : Settings) (senateResp : Except String Json)
    (houseResp : Except String (List RollcallVote)) (sv : List Vote) (doc : List RollcallVote)
    (hsel : s.includeHouse = true ∨ s.includeSenate = true)
    (hsv : senatePart s senateResp = .ok sv)
    (hhr : s.includeHouse = true → houseResp = .ok doc) :
    fetchVotes s senateResp houseResp =
      { votes := jsSortVotes (sv ++ (if s.includeHouse = true
          then doc.map (mapHouseVote (getYearForCongress s.congress s.session)) else []))
        error := none
        requests := (if s.includeSenate = true then [senateMenuUrl s.congress s.session] else [])
          ++ (if s.includeHouse = true
              then [houseRollsIndex (getYearForCongress s.congress s.session)] else []) } := by
  cases hih : s.includeHouse with
  | false =>
    have hsen : s.includeSenate = true := by
      rcases hsel with h | h
      · rw [hih] at h
        exact absurd h (by simp)
      · exact h
    simp [fetchVotes, hih, hsen, hsv]
  | true =>
    rw [hhr hih]
    simp [fetchVotes, hih, hsv]

/-- Projections of a successfully mapped Senate record: chamber, raw
`vote_number` passthrough, and the key split into tag and number. -/
lemma senateRecord_ok (c s : Int) (v : Json) (vote : Vote)
    (h : senateRecord c s v = .ok vote) :
    vote.chamber = "Senate"
    ∧ vote.number = getPropD (.val v) "vote_number"
    ∧ vote.key = senateKeyTag c s ++ jsToString (getPropD (.val v) "vote_number") := by
  unfold senateRecord at h
  repeat' split at h
  all_goals cases h
  all_goals simp_all [getPropD, senateKeyTag]

/-- A successful effectful map determines any pointwise-derived view of
its output from the input list. -/
lemma mapMExcept_ok_map {α β γ : Type} {f : α → Except String β} {g : β → γ} {g2 : α → γ}
    (hp : ∀ x y, f x = .ok y → g y = g2 x) :
    ∀ (xs : List α) (ys : List β), mapMExcept f xs = .ok ys → ys.map g = xs.map g2 := by
  intro xs
  induction xs with
  | nil =>
    intro ys h
    simp only [mapMExcept, Except.ok.injEq] at h
    subst h
    simp
  | cons x xs ih =>
    intro ys h
    unfold mapMExcept at h
    cases hfx : f x with
    | error e => rw [hfx] at h; simp at h
    | ok y =>
      rw [hfx] at h
      cases hrest : mapMExcept f xs with
      | error e => rw [hrest] at h; simp at h
      | ok ys2 =>
        rw [hrest] at h
        simp only [Except.ok.injEq] at h
        subst h
        simp [hp x y hfx, ih ys2 hrest]

/-- The keys a successful Senate branch produces: one per record, the
tag `"s-<congress>-<session>-"` followed by the rendered `vote_number`. -/
lemma senateBranch_keys (c s : Int) (data : Json) (sv : List Vote)
    (h : senateBranch c s data = .ok sv) :
    sv.map (fun v => v.key) = (senateNums data).map (fun t => senateKeyTag c s ++ t) := by
  unfold senateBranch at h
  unfold senateNums rollCallArray
  cases hrc : getProp (.val data) "roll_calls" with
  | error e => simp [hrc] at h
  | ok rc =>
    simp only [hrc] at h ⊢
    by_cases ht : truthy rc
    · simp only [ht, if_true] at h ⊢
      cases hrcc : getProp rc "roll_call" with
      | error e => simp [hrcc] at h
      | ok rcc =>
        simp only [hrcc] at h ⊢
        by_cases ht2 : truthy rcc
        · simp only [ht2, if_true] at h ⊢
          cases rcc with
          | undefined => simp [truthy] at ht2
          | val j =>
            cases j with
            | arr xs =>
              simp only [List.map_map]
              exact mapMExcept_ok_map
                (fun x y hxy => (senateRecord_ok c s x y hxy).2.2) xs sv h
            | null => simp at h
            | bool b => simp at h
            | num n => simp at h
            | str t => simp at h
            | obj fs => simp at h
        · simp only [ht2, Bool.false_eq_true, if_false, Except.ok.injEq] at h ⊢
          subst h
          simp
    · simp only [ht, Bool.false_eq_true, if_false, Except.ok.injEq] at h ⊢
      subst h
      simp

/-- When both dates parse, a nonpositive comparator value means descending
order of the parsed values. -/
lemma voteCmp_le_iff (a b : Vote) (ha : (dateNum a.date).isSome = true)
    (hb : (dateNum b.date).isSome = true) :
    voteCmp a b ≤ 0 ↔ dateDesc a b := by
  obtain ⟨x, hx⟩ := Option.isSome_iff_exists.mp ha
  obtain ⟨y, hy⟩ := Option.isSome_iff_exists.mp hb
  simp only [voteCmp, nanSub, dateDesc, hx, hy, Option.getD_some]
  omega

/-- When both dates parse, a positive comparator value means the reversed
pair is in descending order. -/
lemma voteCmp_not_le (a b : Vote) (ha : (dateNum a.date).isSome = true)
    (hb : (dateNum b.date).isSome = true) (h : ¬ voteCmp a b ≤ 0) :
    dateDesc b a := by
  obtain ⟨x, hx⟩ := Option.isSome_iff_exists.mp ha
  obtain ⟨y, hy⟩ := Option.isSome_iff_exists.mp hb
  simp only [voteCmp, nanSub, hx, hy, Option.getD_some] at h
  simp only [dateDesc, hx, hy, Option.getD_some]
  omega

/-- Descending date order is transitive. -/
lemma dateDesc_trans {a b c : Vote} (h1 : dateDesc a b) (h2 : dateDesc b c) :
    dateDesc a c := by
  simp only [dateDesc] at h1 h2 ⊢
  omega

/-- Inserting a parseable-date vote into a descending-ordered list of
parseable-date votes keeps the list descending-ordered. -/
lemma orderedInsert_pairwise_dateDesc (x : Vote) :
    ∀ l : List Vote, (dateNum x.date).isSome = true →
    (∀ v ∈ l, (dateNum v.date).isSome = true) →
    l.Pairwise dateDesc →
    (List.orderedInsert (fun a b => voteCmp a b ≤ 0) x l).Pairwise dateDesc := by
  intro l
  induction l with
  | nil =>
    intro _ _ _
    simp [List.orderedInsert]
  | cons y ys ih =>
    intro hx hl hp
    rw [List.orderedInsert]
    have hy : (dateNum y.date).isSome = true := hl y (by simp)
    rw [List.pairwise_cons] at hp
    by_cases hr : voteCmp x y ≤ 0
    · rw [if_pos hr]
      have hxy : dateDesc x y := (voteCmp_le_iff x y hx hy).mp hr
      rw [List.pairwise_cons]
      refine ⟨?_, List.pairwise_cons.mpr hp⟩
      intro z hz
      rcases List.mem_cons.mp hz with rfl | hz2
      · exact hxy
      · exact dateDesc_trans hxy (hp.1 z hz2)
    · rw [if_neg hr]
      have hyx : dateDesc y x := voteCmp_not_le x y hx hy hr
      rw [List.pairwise_cons]
      refine ⟨?_, ih hx (fun v hv => hl v (List.mem_cons_of_mem y hv)) hp.2⟩
      intro z hz
      rcases (List.mem_orderedInsert _).mp hz with rfl | hz2
      · exact hyx
      · exact hp.1 z hz2

/-- When every date in the list parses, the modelled sort produces a list
descending in parsed date value. -/
lemma jsSortVotes_pairwise :
    ∀ l : List Vote, (∀ v ∈ l, (dateNum v.date).isSome = true) →
    (jsSortVotes l).Pairwise dateDesc := by
  intro l
  induction l with
  | nil =>
    intro _
    simp [jsSortVotes, List.insertionSort]
  | cons x xs ih =>
    intro hl
    unfold jsSortVotes at ih ⊢
    rw [List.insertionSort]
    apply orderedInsert_pairwise_dateDesc
    · exact hl x (by simp)
    · intro v hv
      exact hl v (List.mem_cons_of_mem x ((List.perm_insertionSort _ xs).mem_iff.mp hv))
    · exact ih (fun v hv => hl v (List.mem_cons_of_mem x hv))

/-- The keys of the mapped House votes: one per element, the tag
`"h-<year>-"` followed by the `rollcall-num` text. -/
lemma houseVotes_keys (year : Int) (doc : List RollcallVote) :
    (doc.map (mapHouseVote year)).map (fun v => v.key)
      = (houseNums doc).map (fun t => houseKeyTag year ++ t) := by
  simp only [houseNums, List.map_map]
  rfl

/-- C2: every Senate roll-call record of the consumed shape maps to a Vote
with number = vote_number, date = vote_date, title = trim(issue) ++ ": " ++
trim(question), result = result ++ " (" ++ Yea ++ "-" ++ Nay ++ ")", and
key = "s-" ++ congress ++ "-" ++ session ++ "-" ++ vote_number; in
particular the scenario record (vote_number 5, vote_date "2024-03-01",
issue " HR1 ", question " On Passage ", result "Agreed to", Yea 60,
Nay 40) at congress 118, session 2 maps to title "HR1: On Passage",
result "Agreed to (60-40)" and key "s-118-2-5". -/
theorem c2_senate_record_mapping :
    (∀ (congress session vote_number yea nay : Int)
        (vote_date issue question resultLabel : String),
      senateRecord congress session
          (mkSenateRecord vote_number vote_date issue question resultLabel yea nay) =
        .ok { chamber := "Senate"
              number := .val (.num vote_number)
              date := .val (.str vote_date)
              title := jsStringTrim issue ++ ": " ++ jsStringTrim question
              result := resultLabel ++ " (" ++ toString yea ++ "-" ++ toString nay ++ ")"
              key := "s-" ++ toString congress ++ "-" ++ toString session ++ "-"
                       ++ toString vote_number })
    ∧ senateRecord 118 2 exSenateRecord = .ok exSenateVote := by
  constructor
  · intro congress session vote_number yea nay vote_date issue question resultLabel
    rfl
  · rfl

/-- C3: every House rollcall-vote element maps to a Vote whose date is the
action-date and action-time texts joined by "T" (the concatenation
proceeds when either child is absent, rendering the absent side as
"undefined"), whose number is the rollcall-num text, whose title is the
vote-question text defaulting to "N/A", whose result is the vote-result
text with the yea/nay totals, and whose key is "h-" ++ year ++ "-" ++
rollcall-num; in particular the scenario element for year 2024 maps to
date "2024-03-02T14:00", result "Passed (200-150)" and key "h-2024-10". -/
theorem c3_house_mapping :
    (∀ (year : Int) (v : RollcallVote),
      (mapHouseVote year v).date =
          .val (.str (optText v.action_date ++ "T" ++ optText v.action_time))
      ∧ (mapHouseVote year v).number =
          (match v.rollcall_num with
           | some t => JsVal.val (.str t)
           | none => JsVal.undefined)
      ∧ (mapHouseVote year v).title =
          (match v.vote_question with
           | some t => if t = "" then "N/A" else t
           | none => "N/A")
      ∧ (mapHouseVote year v).result =
          optText v.vote_result ++ " (" ++ optText v.yea_total ++ "-"
            ++ optText v.nay_total ++ ")"
      ∧ (mapHouseVote year v).key = "h-" ++ toString year ++ "-" ++ optText v.rollcall_num)
    ∧ mapHouseVote 2024 exHouseRC = exHouseVote
    ∧ (mapHouseVote 2024 { exHouseRC with action_time := none }).date =
        .val (.str "2024-03-02Tundefined") := by
  exact ⟨fun year v => ⟨rfl, rfl, rfl, rfl, rfl⟩, rfl, rfl⟩

/-- C6: with both chamber toggles false, `fetchVotes` fails immediately
with the select-at-least-one-chamber validation message, returns no votes
and issues no relay request, for any transport behavior. -/
theorem c6_no_chamber_validation (congress session : Int)
    (senateResp : Except String Json) (houseResp : Except String (List RollcallVote)) :
    fetchVotes { congress := congress, session := session
                 includeHouse := false, includeSenate := false } senateResp houseResp =
      { votes := []
        error := some "Please select at least one chamber (House or Senate) to fetch votes."
        requests := [] } := rfl

/-- C8: `getYearForCongress` computes 1789 + (congress-1)*2 + (session-1),
is monotone nondecreasing in lexicographic (congress, session) order on
valid sessions, and maps (118, 1) to 2023 and (118, 2) to 2024. -/
theorem c8_getYearForCongress (c1 s1 c2 s2 : Int)
    (hs1 : s1 = 1 ∨ s1 = 2) (hs2 : s2 = 1 ∨ s2 = 2)
    (hlex : c1 < c2 ∨ (c1 = c2 ∧ s1 ≤ s2)) :
    getYearForCongress c1 s1 = 1789 + (c1 - 1) * 2 + (s1 - 1)
    ∧ getYearForCongress c1 s1 ≤ getYearForCongress c2 s2
    ∧ getYearForCongress 118 1 = 2023 ∧ getYearForCongress 118 2 = 2024 := by
  refine ⟨rfl, ?_, by decide, by decide⟩
  unfold getYearForCongress
  rcases hs1 with rfl | rfl <;> rcases hs2 with rfl | rfl <;> omega

/-- Witness for C8 at the concrete lexicographically ordered pair
(117, 2) before (118, 1). -/
theorem c8_witness :
    getYearForCongress 117 2 = 1789 + (117 - 1) * 2 + (2 - 1)
    ∧ getYearForCongress 117 2 ≤ getYearForCongress 118 1
    ∧ getYearForCongress 118 1 = 2023 ∧ getYearForCongress 118 2 = 2024 :=
  c8_getYearForCongress 117 2 118 1 (Or.inr rfl) (Or.inl rfl) (Or.inl (by decide))

/-- C1: a thrown failure on either selected branch (network failure,
non-2xx status, or unparseable body, all modelled as the transport
`Except.error`) aborts the whole fetch: the vote list is empty, exactly
the first encountered message is surfaced, and partial results from the
other branch are discarded.  A Senate failure wins for any House
behavior (the House request is then never issued); a House failure after
a successful Senate branch discards the Senate votes. -/
theorem c1_failure_aborts (s : Settings) (senateResp : Except String Json)
    (houseResp : Except String (List RollcallVote)) (e : String) :
    (s.includeSenate = true → senateResp = .error e →
      fetchVotes s senateResp houseResp =
        { votes := [], error := some e
          requests := [senateMenuUrl s.congress s.session] })
    ∧ (s.includeHouse = true → houseResp = .error e →
      ∀ sv, senatePart s senateResp = .ok sv →
        fetchVotes s senateResp houseResp =
          { votes := [], error := some e
            requests := (if s.includeSenate then [senateMenuUrl s.congress s.session] else [])
              ++ [houseRollsIndex (getYearForCongress s.congress s.session)] }) := by
  constructor
  · intro hsen hse
    subst hse
    simp [fetchVotes, senatePart, hsen]
  · intro hh he sv hsv
    subst he
    simp [fetchVotes, hsv, hh]

/-- Witness for C1: the Senate branch succeeds with one vote but the House
fetch fails with HTTP 404; the outcome is the single House error and no
votes. -/
theorem c1_witness :
    fetchVotes { congress := 118, session := 2, includeHouse := true, includeSenate := true }
        (.ok exSenateData) (.error "House Votes failed (HTTP 404). Not Found") =
      { votes := [], error := some "House Votes failed (HTTP 404). Not Found"
        requests := ["/api/senate/118/2", "/api/house/2024"] } :=
  (c1_failure_aborts { congress := 118, session := 2, includeHouse := true, includeSenate := true }
      (.ok exSenateData) (.error "House Votes failed (HTTP 404). Not Found")
      "House Votes failed (HTTP 404). Not Found").2
    rfl rfl [exSenateVote] (by rfl)

/-- Counterexample for C4: a successful fetch (Senate supplies a
2024-03-01 vote and an unparseable-date vote, the House a 2024-03-02
vote) returns the oldest parsed date first and the newest last, so the
list is not sorted descending by parsed date value under any numeric
sentinel for the invalid entry.  The comparator returns NaN against the
invalid entry, which the sort treats as a tie, leaving the neighbors
unordered. -/
theorem c4_counterexample :
    (fetchVotes { congress := 118, session := 2, includeHouse := true, includeSenate := true }
        (.ok exSenateData2) (.ok [exHouseRC])).error = none
    ∧ ((fetchVotes { congress := 118, session := 2, includeHouse := true, includeSenate := true }
        (.ok exSenateData2) (.ok [exHouseRC])).votes.map fun v => dateNum v.date)
      = [some 1709251200000, none, some 1709388000000]
    ∧ (1709251200000 : Int) < 1709388000000 := by
  exact ⟨rfl, rfl, by decide⟩

/-- C4 amended: every successful `fetchVotes` invocation (at least one
chamber selected, each selected branch succeeding) returns the modelled
stable comparator sort of the concatenation of the fetched branches
(Senate votes then House votes, whichever were fetched); when every
entry's date parses, that list is sorted descending by parsed date
value; entries with unparseable dates compare as ties and need not end
up globally ordered.  The example merge yields the House vote
(2024-03-02T14:00) before the Senate vote (2024-03-01). -/
theorem c4_amended (s : Settings) (senateResp : Except String Json)
    (houseResp : Except String (List RollcallVote)) (sv : List Vote) (doc : List RollcallVote)
    (hsel : s.includeHouse = true ∨ s.includeSenate = true)
    (hsv : senatePart s senateResp = .ok sv)
    (hhr : s.includeHouse = true → houseResp = .ok doc) :
    ((fetchVotes s senateResp houseResp).votes =
      jsSortVotes (sv ++ (if s.includeHouse = true
        then doc.map (mapHouseVote (getYearForCongress s.congress s.session)) else [])))
    ∧ ((∀ v ∈ sv ++ (if s.includeHouse = true
          then doc.map (mapHouseVote (getYearForCongress s.congress s.session)) else []),
        (dateNum v.date).isSome = true) →
      (fetchVotes s senateResp houseResp).votes.Pairwise dateDesc)
    ∧ ((fetchVotes { congress := 118, session := 2, includeHouse := true, includeSenate := true }
          (.ok exSenateData) (.ok [exHouseRC])).votes = [exHouseVote, exSenateVote]) := by
  have h1 := fetchVotes_ok s senateResp houseResp sv doc hsel hsv hhr
  refine ⟨by rw [h1], ?_, by rfl⟩
  intro hall
  rw [h1]
  exact jsSortVotes_pairwise _ hall

/-- Witness for C4 amended: at the two-chamber spec scenario every date
parses, the output is descending and the House vote comes first; a
Senate-only invocation (whose House transport fails but is never
consulted) returns just the Senate vote. -/
theorem c4_witness :
    ((fetchVotes { congress := 118, session := 2, includeHouse := true, includeSenate := true }
        (.ok exSenateData) (.ok [exHouseRC])).votes.Pairwise dateDesc
    ∧ (fetchVotes { congress := 118, session := 2, includeHouse := true, includeSenate := true }
        (.ok exSenateData) (.ok [exHouseRC])).votes = [exHouseVote, exSenateVote])
    ∧ (fetchVotes { congress := 118, session := 2, includeHouse := false, includeSenate := true }
        (.ok exSenateData) (.error "down")).votes = [exSenateVote] :=
  ⟨⟨(c4_amended { congress := 118, session := 2, includeHouse := true, includeSenate := true }
        (.ok exSenateData) (.ok [exHouseRC]) [exSenateVote] [exHouseRC]
        (Or.inl rfl) (by rfl) (fun _ => rfl)).2.1
      (by intro v hv; simp at hv; rcases hv with rfl | rfl <;> rfl),
    (c4_amended { congress := 118, session := 2, includeHouse := true, includeSenate := true }
        (.ok exSenateData) (.ok [exHouseRC]) [exSenateVote] [exHouseRC]
        (Or.inl rfl) (by rfl) (fun _ => rfl)).2.2⟩,
   (c4_amended { congress := 118, session := 2, includeHouse := false, includeSenate := true }
        (.ok exSenateData) (.error "down") [exSenateVote] []
        (Or.inr rfl) (by rfl) (fun h => absurd h (by decide))).1⟩

/-- Counterexample for C5: for an upstream 2xx Senate response the proxy
replies with status 200 (not the upstream 201) and with the JSON
re-serialized by parse/stringify (whitespace dropped), not byte-for-byte. -/
theorem c5_counterexample :
    senateHandler (.response 201 "\x7b\"a\": 1\x7d") =
      { status := 200, body := "\x7b\"a\":1\x7d", contentType := some "application/json" }
    ∧ (200 : Nat) ≠ 201 ∧ "\x7b\"a\":1\x7d" ≠ "\x7b\"a\": 1\x7d" := by
  exact ⟨rfl, by decide, by decide⟩

/-- C5 amended: on network failure both endpoints reply 500 with a fixed
plain-text message; on an upstream 2xx the Senate endpoint replies 200
with the parsed JSON re-serialized (content type application/json) and
the House endpoint replies 200 with the XML body forwarded verbatim
(content type application/xml); on an upstream non-2xx both forward the
upstream status with the fixed message body. -/
theorem c5_amended (st : Nat) (body msg : String) :
    (senateHandler (.netError msg) =
      { status := 500, body := "Error fetching data from Senate API", contentType := none })
    ∧ (houseHandler (.netError msg) =
      { status := 500, body := "Error fetching data from House API", contentType := none })
    ∧ (is2xx st = true →
        senateHandler (.response st body) =
          { status := 200, body := (axiosParse body).stringify
            contentType := some "application/json" }
        ∧ houseHandler (.response st body) =
          { status := 200, body := body, contentType := some "application/xml" })
    ∧ (is2xx st = false →
        senateHandler (.response st body) =
          { status := st, body := "Error fetching data from Senate API", contentType := none }
        ∧ houseHandler (.response st body) =
          { status := st, body := "Error fetching data from House API", contentType := none }) := by
  refine ⟨rfl, rfl, fun h => ⟨?_, ?_⟩, fun h => ⟨?_, ?_⟩⟩ <;>
    simp [senateHandler, houseHandler, h]

/-- Witness for C5 amended at an upstream 200 and an upstream 404. -/
theorem c5_witness :
    (senateHandler (.response 200 "\x7b\"a\":1\x7d") =
      { status := 200, body := (axiosParse "\x7b\"a\":1\x7d").stringify
        contentType := some "application/json" }
    ∧ houseHandler (.response 200 "\x7b\"a\":1\x7d") =
      { status := 200, body := "\x7b\"a\":1\x7d", contentType := some "application/xml" })
    ∧ (senateHandler (.response 404 "nf") =
      { status := 404, body := "Error fetching data from Senate API", contentType := none }
    ∧ houseHandler (.response 404 "nf") =
      { status := 404, body := "Error fetching data from House API", contentType := none }) :=
  ⟨(c5_amended 200 "\x7b\"a\":1\x7d" "m").2.2.1 rfl,
   (c5_amended 404 "nf" "m").2.2.2 rfl⟩

/-- Counterexample for C7: a Senate body that is valid JSON but whose
`roll_calls.roll_call` is truthy and not an array (here the number 5)
does not soft-fail with a warning: the `.map` call raises a `TypeError`
that aborts the whole fetch, discarding the House results the claim says
would still be returned. -/
theorem c7_counterexample :
    fetchVotes { congress := 118, session := 2, includeHouse := true, includeSenate := true }
        (.ok malformedRollCallData) (.ok [exHouseRC]) =
      { votes := []
        error := some "TypeError: data.roll_calls.roll_call.map is not a function"
        requests := ["/api/senate/118/2"] } := rfl

/-- C7 amended: only when the `data.roll_calls && data.roll_calls.roll_call`
check fails without throwing (the field chain absent or falsy) does the
Senate branch soft-fail: it yields zero votes, the fetch is not fatal,
and the House results are still returned; a truthy non-array
`roll_call`, by contrast, raises a fatal `TypeError`. -/
theorem c7_amended (congress session : Int) (data : Json) (doc : List RollcallVote)
    (h : senateSoftMiss data = true) :
    senateBranch congress session data = .ok []
    ∧ fetchVotes
        { congress := congress, session := session, includeHouse := true, includeSenate := true }
        (.ok data) (.ok doc) =
      { votes := jsSortVotes (doc.map (mapHouseVote (getYearForCongress congress session)))
        error := none
        requests := [senateMenuUrl congress session,
                     houseRollsIndex (getYearForCongress congress session)] } := by
  have hb : senateBranch congress session data = .ok [] := by
    unfold senateSoftMiss at h
    unfold senateBranch
    cases hrc : getProp (.val data) "roll_calls" with
    | error e => simp [hrc] at h
    | ok rc =>
      simp only [hrc] at h ⊢
      by_cases ht : truthy rc
      · simp only [ht, if_true] at h ⊢
        cases hrcc : getProp rc "roll_call" with
        | error e => simp [hrcc] at h
        | ok rcc =>
          simp only [hrcc] at h ⊢
          simp only [Bool.not_eq_eq_eq_not, Bool.not_true] at h
          simp [h]
      · simp [ht]
  refine ⟨hb, ?_⟩
  rw [fetchVotes_both_ok congress session data doc [] hb]
  simp

/-- Witness for C7 amended: a JSON body with no `roll_calls` field yields
zero Senate votes and the House scenario vote is still returned. -/
theorem c7_witness :
    senateBranch 118 2 noRollsData = .ok []
    ∧ fetchVotes { congress := 118, session := 2, includeHouse := true, includeSenate := true }
        (.ok noRollsData) (.ok [exHouseRC]) =
      { votes := jsSortVotes ([exHouseRC].map (mapHouseVote (getYearForCongress 118 2)))
        error := none
        requests := [senateMenuUrl 118 2, houseRollsIndex (getYearForCongress 118 2)] } :=
  c7_amended 118 2 noRollsData [exHouseRC] rfl

/-- Counterexample for C9: two Senate records sharing `vote_number` 5 in
one successful fetch produce two votes with the same key `"s-118-2-5"`,
so the key is not unique within the batch. -/
theorem c9_counterexample :
    ((fetchVotes { congress := 118, session := 2, includeHouse := false, includeSenate := true }
        (.ok dupSenateData) (.ok [])).votes.map fun v => v.key)
      = ["s-118-2-5", "s-118-2-5"]
    ∧ (fetchVotes { congress := 118, session := 2, includeHouse := false, includeSenate := true }
        (.ok dupSenateData) (.ok [])).error = none
    ∧ ¬ (["s-118-2-5", "s-118-2-5"] : List String).Nodup := by
  exact ⟨rfl, rfl, by decide⟩

/-- C9 amended: within every successful fetched batch (any combination
of selected chambers, each selected branch succeeding) the keys are
pairwise distinct provided the rendered Senate `vote_number`s are
pairwise distinct and the House `rollcall-num` texts are pairwise
distinct; Senate keys (prefix "s-") and House keys (prefix "h-") never
collide with each other. -/
theorem c9_amended (s : Settings) (senateResp : Except String Json)
    (houseResp : Except String (List RollcallVote)) (sv : List Vote) (doc : List RollcallVote)
    (hsel : s.includeHouse = true ∨ s.includeSenate = true)
    (hsv : senatePart s senateResp = .ok sv)
    (hhr : s.includeHouse = true → houseResp = .ok doc)
    (hnod : ∀ data, senateResp = .ok data → (senateNums data).Nodup)
    (hhn : (houseNums doc).Nodup) :
    ((fetchVotes s senateResp houseResp).votes.map fun v => v.key).Nodup := by
  have h1 := fetchVotes_ok s senateResp houseResp sv doc hsel hsv hhr
  have hsvkeys : ∃ nums : List String,
      (sv.map fun v => v.key) = nums.map (fun t => senateKeyTag s.congress s.session ++ t)
      ∧ nums.Nodup := by
    unfold senatePart at hsv
    by_cases hsen : s.includeSenate = true
    · simp only [hsen, if_true] at hsv
      cases hsr : senateResp with
      | error e => simp [hsr] at hsv
      | ok data =>
        simp only [hsr] at hsv
        exact ⟨senateNums data, senateBranch_keys s.congress s.session data sv hsv,
          hnod data hsr⟩
    · simp only [hsen, Bool.false_eq_true, if_false, Except.ok.injEq] at hsv
      subst hsv
      exact ⟨[], by simp, List.nodup_nil⟩
  have hhvkeys : ∃ nums2 : List String,
      ((if s.includeHouse = true
          then doc.map (mapHouseVote (getYearForCongress s.congress s.session))
          else []).map fun v => v.key)
        = nums2.map (fun t => houseKeyTag (getYearForCongress s.congress s.session) ++ t)
      ∧ nums2.Nodup := by
    by_cases hih : s.includeHouse = true
    · rw [if_pos hih]
      exact ⟨houseNums doc, houseVotes_keys _ doc, hhn⟩
    · rw [if_neg hih]
      exact ⟨[], by simp, List.nodup_nil⟩
  obtain ⟨nums, hkeq, hknd⟩ := hsvkeys
  obtain ⟨nums2, hkeq2, hknd2⟩ := hhvkeys
  rw [h1]
  have hperm : List.Perm
      ((jsSortVotes (sv ++ (if s.includeHouse = true
          then doc.map (mapHouseVote (getYearForCongress s.congress s.session)) else []))).map
        fun v => v.key)
      ((sv ++ (if s.includeHouse = true
          then doc.map (mapHouseVote (getYearForCongress s.congress s.session)) else [])).map
        fun v => v.key) :=
    (List.perm_insertionSort _ _).map _
  rw [hperm.nodup_iff, List.map_append, hkeq, hkeq2, List.nodup_append]
  refine ⟨hknd.map (string_append_left_injective _),
    hknd2.map (string_append_left_injective _), ?_⟩
  intro a ha hb
  rcases List.mem_map.mp ha with ⟨t, _, rfl⟩
  rcases List.mem_map.mp hb with ⟨u, _, hu⟩
  exact senateKey_ne_houseKey s.congress s.session _ t u hu.symm

/-- Witness for C9 amended: the two-chamber spec scenario (one Senate and
one House vote, distinct keys) and a Senate-only batch (the House
transport failing unconsulted). -/
theorem c9_witness :
    ((fetchVotes { congress := 118, session := 2, includeHouse := true, includeSenate := true }
        (.ok exSenateData) (.ok [exHouseRC])).votes.map fun v => v.key).Nodup
    ∧ ((fetchVotes { congress := 118, session := 2, includeHouse := false, includeSenate := true }
        (.ok exSenateData) (.error "down")).votes.map fun v => v.key).Nodup :=
  ⟨c9_amended { congress := 118, session := 2, includeHouse := true, includeSenate := true }
      (.ok exSenateData) (.ok [exHouseRC]) [exSenateVote] [exHouseRC]
      (Or.inl rfl) (by rfl) (fun _ => rfl)
      (fun data h => by simp only [Except.ok.injEq] at h; subst h; decide) (by decide),
   c9_amended { congress := 118, session := 2, includeHouse := false, includeSenate := true }
      (.ok exSenateData) (.error "down") [exSenateVote] []
      (Or.inr rfl) (by rfl) (fun h => absurd h (by decide))
      (fun data h => by simp only [Except.ok.injEq] at h; subst h; decide) (by decide)⟩

/-- Counterexample for C10: a successful House-only fetch produces a vote
whose `number` is the `rollcall-num` text — the string "10", not an
integer. -/
theorem c10_counterexample :
    ((fetchVotes { congress := 118, session := 2, includeHouse := true, includeSenate := false }
        (.ok (.obj [])) (.ok [exHouseRC])).votes.map fun v => v.number)
      = [.val (.str "10")]
    ∧ ((fetchVotes { congress := 118, session := 2, includeHouse := true, includeSenate := false }
        (.ok (.obj [])) (.ok [exHouseRC])).votes.map fun v => v.number.isNum) = [false]
    ∧ (fetchVotes { congress := 118, session := 2, includeHouse := true, includeSenate := false }
        (.ok (.obj [])) (.ok [exHouseRC])).error = none := by
  exact ⟨rfl, rfl, rfl⟩

/-- C10 amended: the code never converts the roll-call number: a House
vote's `number` is the `rollcall-num` element text (a string), or
`undefined` when the child is absent — never a number value — while a
Senate vote's `number` is the JSON `vote_number` value passed through
unchanged (a number exactly when the feed supplies one). -/
theorem c10_amended :
    (∀ (year : Int) (v : RollcallVote),
      (mapHouseVote year v).number =
        (match v.rollcall_num with
         | some t => JsVal.val (.str t)
         | none => JsVal.undefined)
      ∧ (mapHouseVote year v).number.isNum = false)
    ∧ (∀ (congress session vote_number yea nay : Int)
        (vote_date issue question resultLabel : String),
        ∃ vote,
          senateRecord congress session
              (mkSenateRecord vote_number vote_date issue question resultLabel yea nay) =
            .ok vote
          ∧ vote.number = .val (.num vote_number)) := by
  constructor
  · intro year v
    refine ⟨rfl, ?_⟩
    cases h : v.rollcall_num <;> simp [mapHouseVote, JsVal.isNum, h]
  · intro congress session vote_number yea nay vote_date issue question resultLabel
    exact ⟨_, rfl, rfl⟩
